import Mathlib

/-!
Shallow embedding of the bmclib SupermicroX provider
(`providers/supermicro/supermicrox/supermicrox.go`) and of the HP c7000
SOAP envelope builder (`providers/hp/c7000/xmlhelpers.go`).

Go's `(value, error)` multiple returns are embedded as products
`value × Option Err`; the network environment (which XML document each
CGI query decodes to, what a path-style GET returns) is an explicit
oracle, so every accessor is a pure function of that oracle.
-/

namespace Bmclib

/-- Error values observed in the source: the sentinel errors from the
`errors` package (`ErrPageNotFound`, `ErrInvalidSerial`,
`ErrUnableToReadData`, `ErrNotImplemented`), plus transport errors,
XML/JSON decode errors, `strconv.Atoi` failures and `fmt.Errorf` strings. -/
inductive Err where
  | pageNotFound
  | invalidSerial
  | unableToReadData
  | notImplemented
  | transportErr (msg : String)
  | decodeErr (msg : String)
  | atoiErr (s : String)
  | custom (msg : String)
deriving DecidableEq

deriving instance DecidableEq for Except

/-- Go `strings.ToLower` restricted to ASCII, which is all the source's
serial/status strings use. -/
def strToLower (s : String) : String := String.mk (s.data.map Char.toLower)

/-- Go `strings.HasSuffix`. -/
def strEndsWith (s sfx : String) : Bool := sfx.data.isSuffixOf s.data

/-- Go `strings.TrimSuffix`: drop the suffix when present, else return
the string unchanged. -/
def trimSfx (s sfx : String) : String :=
  if strEndsWith s sfx then s.dropRight sfx.length else s

/-- Value of a list of decimal digit characters. -/
def digitsToNat (ds : List Char) : Nat :=
  ds.foldl (fun acc c => 10 * acc + (c.toNat - 48)) 0

/-- Go `strconv.Atoi`: an optional sign followed by one or more decimal
digits; anything else is a syntax error. -/
def atoi (s : String) : Except Err Int :=
  let parse : List Char → Int → Except Err Int := fun ds sign =>
    if ds ≠ [] ∧ ds.all Char.isDigit then Except.ok (sign * (digitsToNat ds : Int))
    else Except.error (Err.atoiErr s)
  match s.data with
  | '+' :: rest => parse rest 1
  | '-' :: rest => parse rest (-1)
  | ds => parse ds 1

/-- Modelled from the spec: the `supermicro.IPMI` response document type
lives outside `src/`; its shape is reconstructed from every field access
the provider performs. Board sub-element of the FRU document. -/
structure Board where
  SerialNum : String
  PartNum : String
deriving DecidableEq

structure FruInfo where
  Board : Option Board
deriving DecidableEq

structure GenericNested where
  IpmiFwVersion : String
  BmcMac : String
deriving DecidableEq

structure GenericInfo where
  IpmiFwVersion : String
  BmcMac : String
  Generic : Option GenericNested
deriving DecidableEq

structure Hostname where
  Name : String
deriving DecidableEq

structure ConfigInfo where
  Hostname : Option Hostname
deriving DecidableEq

structure HealthInfo where
  Health : String
deriving DecidableEq

structure Dimm where
  Size : String
deriving DecidableEq

structure CpuEntry where
  Version : String
  Core : String
deriving DecidableEq

structure BiosInfo where
  Version : String
deriving DecidableEq

structure Node where
  ID : Int
  NodeSerial : String
  Power : String
  SystemTemp : String
deriving DecidableEq

structure NodeInfo where
  Nodes : List Node
deriving DecidableEq

structure PowerElem where
  Status : String
deriving DecidableEq

structure PowerInfo where
  Power : PowerElem
deriving DecidableEq

structure PlatformInfo where
  MbMacAddr1 : String
  MbMacAddr2 : String
  MbMacAddr3 : String
  MbMacAddr4 : String
deriving DecidableEq

structure BiosLicense where
  Check : String
deriving DecidableEq

/-- Modelled from the spec: root of the decoded `supermicro.IPMI` XML
document (type declared outside `src/`); every optional sub-tree the
provider null-checks is an `Option`, list-valued sub-trees are lists. -/
structure IPMI where
  FruInfo : Option FruInfo := none
  GenericInfo : Option GenericInfo := none
  ConfigInfo : Option ConfigInfo := none
  HealthInfo : Option HealthInfo := none
  Dimm : List Dimm := []
  CPU : List CpuEntry := []
  Bios : Option BiosInfo := none
  NodeInfo : Option NodeInfo := none
  PowerInfo : Option PowerInfo := none
  PlatformInfo : Option PlatformInfo := none
  BiosLicense : Option BiosLicense := none
deriving DecidableEq

/-- Outcome of `query(requestType)` (supermicrox.go:205): a transport or
login failure leaves the document pointer nil; an `xml.Unmarshal` failure
returns the freshly allocated zero document together with the decode
error; success returns the decoded document with a nil error. -/
inductive QueryResult where
  | fail (msg : String)
  | decodeFail (msg : String)
  | ok (doc : IPMI)
deriving DecidableEq

/-- The error component of a `query` call, as the callers observe it. -/
def QueryResult.err : QueryResult → Option Err
  | .fail msg => some (.transportErr msg)
  | .decodeFail msg => some (.decodeErr msg)
  | .ok _ => none

/-- Outcome of the HTTP exchange inside `get` (supermicrox.go:98):
either a transport/login/read failure, or a status code with a body. -/
inductive GetOutcome where
  | fail (msg : String)
  | resp (status : Nat) (body : String)
deriving DecidableEq

/-- `get` (supermicrox.go:98-147): transport errors propagate; after the
body is read, status 404 yields `(nil, ErrPageNotFound)`; any other
status returns the body with a nil error. -/
def get : GetOutcome → Option String × Option Err
  | .fail msg => (none, some (.transportErr msg))
  | .resp status body =>
    if status = 404 then (none, some Err.pageNotFound) else (some body, none)

/-- The `ChassisInfo` JSON schema (supermicrox.go:46-55), flattened. -/
structure ChassisInfo where
  SerialNumber : String
  ErrorCode : String
  ErrorMessage : String
  ExtendedMessageIds : List String
deriving DecidableEq

/-- Outcome of `json.Unmarshal` into `ChassisInfo`, supplied as an
oracle (the JSON decoder itself is external library code). -/
inductive ChassisDecode where
  | fail (msg : String)
  | ok (ci : ChassisInfo)
deriving DecidableEq

/-- The error message built by `ChassisSerial` when the chassis JSON
carries an error object (supermicrox.go:281-287); the `%s` rendering of
the extended-info entries is abstracted to the message id. -/
def chassisErrMsg (ci : ChassisInfo) : String :=
  (ci.ExtendedMessageIds.enum.foldl
    (fun acc p => acc ++ ", Extended[" ++ toString p.1 ++ "]: " ++ p.2)
    ("Code: " ++ ci.ErrorCode ++ ", Message: " ++ ci.ErrorMessage))

/-- `ChassisSerial` (supermicrox.go:269-290): GET the Redfish chassis
endpoint, decode the JSON, fail when the embedded error code is
non-empty, otherwise return the serial number lower-cased. (`get` only
returns a body when its error is nil.) -/
def ChassisSerial (o : GetOutcome) (dec : String → ChassisDecode) : String × Option Err :=
  match get o with
  | (_, some e) => ("", some e)
  | (payload, none) =>
    match dec (payload.getD "") with
    | .fail msg => ("", some (.decodeErr msg))
    | .ok ci =>
      if ci.ErrorCode ≠ "" then ("", some (.custom (chassisErrMsg ci)))
      else (strToLower ci.SerialNumber, none)

structure Nic where
  Name : String
  MacAddress : String
deriving DecidableEq

structure Disk where
deriving DecidableEq

/-- Modelled from the spec: `supermicro.VendorID`, a constant vendor
identifier declared outside `src/`. -/
def VendorID : String := "supermicro"

/-- Modelled from the spec: `httpclient.StandardizeProcessorName`
(internal package, outside `src/`), a vendor-string normalization step;
no claim depends on its value, so it is embedded as the raw string. -/
def standardizeProcessorName (s : String) : String := s

/-- `Serial` (supermicrox.go:255-266): query FRU info; absent FRU or
board sub-documents yield `("", ErrInvalidSerial)`; otherwise the board
serial is returned lower-cased. -/
def Serial (q : QueryResult) : String × Option Err :=
  match q with
  | .fail msg => ("", some (.transportErr msg))
  | .decodeFail msg => ("", some (.decodeErr msg))
  | .ok doc =>
    match doc.FruInfo with
    | none => ("", some Err.invalidSerial)
    | some fru =>
      match fru.Board with
      | none => ("", some Err.invalidSerial)
      | some b => (strToLower b.SerialNum, none)

/-- `Model` (supermicrox.go:306-317). -/
def Model (q : QueryResult) : String × Option Err :=
  match q with
  | .fail msg => ("", some (.transportErr msg))
  | .decodeFail msg => ("", some (.decodeErr msg))
  | .ok doc =>
    match doc.FruInfo with
    | some fru =>
      match fru.Board with
      | some b => (b.PartNum, none)
      | none => ("", some (.custom "SupermicroX Model(): Model not found!"))
    | none => ("", some (.custom "SupermicroX Model(): Model not found!"))

/-- `HardwareType` (supermicrox.go:295-303): logs and swallows the
`Model` error, returning the empty string in that case. -/
def HardwareType (q : QueryResult) : String :=
  match Model q with
  | (_, some _) => ""
  | (m, none) => m

/-- `Version` (supermicrox.go:320-335). -/
def Version (q : QueryResult) : String × Option Err :=
  match q with
  | .fail msg => ("", some (.transportErr msg))
  | .decodeFail msg => ("", some (.decodeErr msg))
  | .ok doc =>
    match doc.GenericInfo with
    | some gi =>
      if gi.IpmiFwVersion ≠ "" then (gi.IpmiFwVersion, none)
      else
        match gi.Generic with
        | some g => (g.IpmiFwVersion, none)
        | none => ("", none)
    | none => ("", none)

/-- `Name` (supermicrox.go:338-349). -/
def Name (q : QueryResult) : String × Option Err :=
  match q with
  | .fail msg => ("", some (.transportErr msg))
  | .decodeFail msg => ("", some (.decodeErr msg))
  | .ok doc =>
    match doc.ConfigInfo with
    | some ci =>
      match ci.Hostname with
      | some h => (h.Name, none)
      | none => ("", none)
    | none => ("", none)

/-- `Status` (supermicrox.go:352-363). -/
def Status (q : QueryResult) : String × Option Err :=
  match q with
  | .fail msg => ("", some (.transportErr msg))
  | .decodeFail msg => ("", some (.decodeErr msg))
  | .ok doc =>
    match doc.HealthInfo with
    | some hi => if hi.Health = "1" then ("OK", none) else ("Unhealthy", none)
    | none => ("Unhealthy", none)

/-- The DIMM summation loop of `Memory` (supermicrox.go:369-376): strip
the " MB" suffix, parse, accumulate; an unparsable size returns the sum
accumulated so far together with the `Atoi` error (before the division
by 1024, which only happens at the final return). -/
def memLoop : List Dimm → Int → Int × Option Err
  | [], acc => (acc, none)
  | d :: rest, acc =>
    match atoi (trimSfx d.Size " MB") with
    | .error e => (acc, some e)
    | .ok size => memLoop rest (acc + size)

/-- `Memory` (supermicrox.go:366-379). The query error is never
checked: a transport/login failure leaves the document pointer nil and
the subsequent `ipmi.Dimm` access panics — embedded as `none`. An
unmarshal failure yields the zero document (no DIMM entries), so the
loop is skipped and the query error is returned alongside `0`. -/
def Memory (q : QueryResult) : Option (Int × Option Err) :=
  match q with
  | .fail _ => none
  | .decodeFail msg => some (0, some (.decodeErr msg))
  | .ok doc =>
    match memLoop doc.Dimm 0 with
    | (acc, some pe) => some (acc, some pe)
    | (acc, none) => some (acc.tdiv 1024, none)

/-- `CPU` (supermicrox.go:382-403): name of the first processor, socket
count, core count parsed from the first entry, thread count aliased to
core count. -/
def CPU (q : QueryResult) : (String × Int × Int × Int) × Option Err :=
  match q with
  | .fail msg => (("", 0, 0, 0), some (.transportErr msg))
  | .decodeFail msg => (("", 0, 0, 0), some (.decodeErr msg))
  | .ok doc =>
    match doc.CPU with
    | [] => (("", 0, 0, 0), none)
    | entry :: _ =>
      match atoi entry.Core with
      | .error e => ((standardizeProcessorName entry.Version, (doc.CPU.length : Int), 0, 0), some e)
      | .ok core =>
        ((standardizeProcessorName entry.Version, (doc.CPU.length : Int), core, core), none)

/-- `BiosVersion` (supermicrox.go:406-417). -/
def BiosVersion (q : QueryResult) : String × Option Err :=
  match q with
  | .fail msg => ("", some (.transportErr msg))
  | .decodeFail msg => ("", some (.decodeErr msg))
  | .ok doc =>
    match doc.Bios with
    | some b => (b.Version, none)
    | none => ("", none)

/-- The node-matching loop of `PowerKw` (supermicrox.go:431-440): the
first node whose lower-cased serial equals the device serial has its
power field parsed as watts and divided by 1000 (the float division is
embedded exactly, over ℚ); no match falls through to `(0, nil)`. -/
def powerLoop : List Node → String → Rat × Option Err
  | [], _ => (0, none)
  | n :: rest, serial =>
    if strToLower n.NodeSerial = serial then
      match atoi n.Power with
      | .error e => (0, some e)
      | .ok v => ((v : Rat) / 1000, none)
    else powerLoop rest serial

/-- `PowerKw` (supermicrox.go:420-444): query node info; when present,
fetch the device's own serial and scan the node list. -/
def PowerKw (nodeQ fruQ : QueryResult) : Rat × Option Err :=
  match nodeQ with
  | .fail msg => (0, some (.transportErr msg))
  | .decodeFail msg => (0, some (.decodeErr msg))
  | .ok doc =>
    match doc.NodeInfo with
    | none => (0, none)
    | some ni =>
      match Serial fruQ with
      | (_, some e) => (0, some e)
      | (serial, none) => powerLoop ni.Nodes serial

/-- `PowerState` (supermicrox.go:447-458): lower-cased power status when
the power-info document is present, the literal `"unknow"` otherwise. -/
def PowerState (q : QueryResult) : String × Option Err :=
  match q with
  | .fail msg => ("", some (.transportErr msg))
  | .decodeFail msg => ("", some (.decodeErr msg))
  | .ok doc =>
    match doc.PowerInfo with
    | some pi => (strToLower pi.Power.Status, none)
    | none => ("unknow", none)

/-- The node-matching loop of `TempC` (supermicrox.go:472-481). -/
def tempLoop : List Node → String → Int × Option Err
  | [], _ => (0, none)
  | n :: rest, serial =>
    if strToLower n.NodeSerial = serial then
      match atoi n.SystemTemp with
      | .error e => (0, some e)
      | .ok v => (v, none)
    else tempLoop rest serial

/-- `TempC` (supermicrox.go:461-485). -/
def TempC (nodeQ fruQ : QueryResult) : Int × Option Err :=
  match nodeQ with
  | .fail msg => (0, some (.transportErr msg))
  | .decodeFail msg => (0, some (.decodeErr msg))
  | .ok doc =>
    match doc.NodeInfo with
    | none => (0, none)
    | some ni =>
      match Serial fruQ with
      | (_, some e) => (0, some e)
      | (serial, none) => tempLoop ni.Nodes serial

/-- The scan of `IsBlade` (supermicrox.go:495-499): true as soon as a
node with a non-empty serial is found. -/
def bladeLoop : List Node → Bool
  | [] => false
  | n :: rest => if n.NodeSerial ≠ "" then true else bladeLoop rest

/-- `IsBlade` (supermicrox.go:488-503): an absent node-info document
yields `(false, nil)`. -/
def IsBlade (q : QueryResult) : Bool × Option Err :=
  match q with
  | .fail msg => (false, some (.transportErr msg))
  | .decodeFail msg => (false, some (.decodeErr msg))
  | .ok doc =>
    match doc.NodeInfo with
    | none => (false, none)
    | some ni => (bladeLoop ni.Nodes, none)

/-- The scan of `Slot` (supermicrox.go:520-524): the slot variable is
overwritten by every matching node, the last match winning. -/
def slotLoop : List Node → String → Int → Int
  | [], _, acc => acc
  | n :: rest, serial, acc =>
    slotLoop rest serial (if strToLower n.NodeSerial = serial then n.ID + 1 else acc)

/-- `Slot` (supermicrox.go:506-527): slot defaults to 1; an absent
node-info document is `ErrUnableToReadData`. -/
def Slot (nodeQ fruQ : QueryResult) : Int × Option Err :=
  match nodeQ with
  | .fail msg => (1, some (.transportErr msg))
  | .decodeFail msg => (1, some (.decodeErr msg))
  | .ok doc =>
    match doc.NodeInfo with
    | none => (1, some Err.unableToReadData)
    | some ni =>
      match Serial fruQ with
      | (_, some e) => (1, some e)
      | (serial, none) => (slotLoop ni.Nodes serial 1, none)

/-- `Nics` (supermicrox.go:530-593): the BMC NIC from the generic-info
query, then up to four host NICs from the platform-info query; an error
on the second query returns the NICs gathered so far with that error. -/
def Nics (genQ platQ : QueryResult) : List Nic × Option Err :=
  let bmcNics : List Nic :=
    match genQ with
    | .ok doc =>
      match doc.GenericInfo with
      | some gi =>
        if gi.BmcMac ≠ "" then [{ Name := "bmc", MacAddress := gi.BmcMac }]
        else
          match gi.Generic with
          | some g => [{ Name := "bmc", MacAddress := g.BmcMac }]
          | none => []
      | none => []
    | _ => []
  match genQ.err with
  | some e => ([], some e)
  | none =>
    match platQ with
    | .fail msg => (bmcNics, some (.transportErr msg))
    | .decodeFail msg => (bmcNics, some (.decodeErr msg))
    | .ok doc2 =>
      match doc2.PlatformInfo with
      | none => (bmcNics, none)
      | some pi =>
        (bmcNics
          ++ (if pi.MbMacAddr1 ≠ "" then [{ Name := "eth0", MacAddress := pi.MbMacAddr1 }] else [])
          ++ (if pi.MbMacAddr2 ≠ "" then [{ Name := "eth1", MacAddress := pi.MbMacAddr2 }] else [])
          ++ (if pi.MbMacAddr3 ≠ "" then [{ Name := "eth2", MacAddress := pi.MbMacAddr3 }] else [])
          ++ (if pi.MbMacAddr4 ≠ "" then [{ Name := "eth3", MacAddress := pi.MbMacAddr4 }] else []),
         none)

/-- `License` (supermicrox.go:596-612). -/
def License (q : QueryResult) : (String × String) × Option Err :=
  match q with
  | .fail msg => (("", ""), some (.transportErr msg))
  | .decodeFail msg => (("", ""), some (.decodeErr msg))
  | .ok doc =>
    match doc.BiosLicense with
    | some bl =>
      if bl.Check = "0" then (("oob", "Activated"), none)
      else if bl.Check = "1" then (("oob", "Not Activated"), none)
      else (("", ""), none)
    | none => (("", ""), none)

/-- `Disks` (supermicrox.go:762-764): unimplemented, always empty. -/
def Disks : List Disk × Option Err := ([], none)

/-- The `devices.Blade` record (fields as assigned by the aggregator;
the `devices` package is outside `src/`). -/
structure Blade where
  Vendor : String
  BmcAddress : String
  BmcType : String
  Serial : String
  BmcVersion : String
  Model : String
  Nics : List Nic
  Disks : List Disk
  BiosVersion : String
  Processor : String
  ProcessorCount : Int
  ProcessorCoreCount : Int
  ProcessorThreadCount : Int
  Memory : Int
  Status : String
  Name : String
  TempC : Int
  PowerKw : Rat
  PowerState : String
  BmcLicenceType : String
  BmcLicenceStatus : String
  BladePosition : Int
  ChassisSerial : String
deriving DecidableEq

/-- The `devices.Discrete` record. -/
structure Discrete where
  Vendor : String
  BmcAddress : String
  BmcType : String
  Serial : String
  BmcVersion : String
  Model : String
  Nics : List Nic
  Disks : List Disk
  BiosVersion : String
  Processor : String
  ProcessorCount : Int
  ProcessorCoreCount : Int
  ProcessorThreadCount : Int
  Memory : Int
  Status : String
  Name : String
  TempC : Int
  PowerKw : Rat
  PowerState : String
  BmcLicenceType : String
  BmcLicenceStatus : String
deriving DecidableEq

/-- The `interface{}` returned by `ServerSnapshot`: one of the two
device shapes. -/
inductive Server where
  | blade (b : Blade)
  | discrete (d : Discrete)
deriving DecidableEq

/-- The results of the accessor calls `ServerSnapshot` makes, one field
per call site, each with Go's `(value, error)` shape. `memory` is
`Option`-wrapped because `Memory` can panic (nil-document dereference). -/
structure Accessors where
  isBlade : Bool × Option Err
  hardwareType : String
  serial : String × Option Err
  version : String × Option Err
  model : String × Option Err
  nics : List Nic × Option Err
  disks : List Disk × Option Err
  biosVersion : String × Option Err
  cpu : (String × Int × Int × Int) × Option Err
  memory : Option (Int × Option Err)
  status : String × Option Err
  name : String × Option Err
  tempC : Int × Option Err
  powerKw : Rat × Option Err
  powerState : String × Option Err
  license : (String × String) × Option Err
  slot : Int × Option Err
  chassisSerial : String × Option Err

/-- One BMC target: its address and the decoded outcome of each network
interaction, as a deterministic oracle keyed by the literal query string
the source sends. -/
structure Bmc where
  ip : String
  queryResult : String → QueryResult
  chassisGet : GetOutcome
  decodeChassis : String → ChassisDecode

def fruInfoKey : String := "FRU_INFO.XML=(0,0)"
def genericInfoKey : String := "GENERIC_INFO.XML=(0,0)"
def configInfoKey : String := "CONFIG_INFO.XML=(0,0)"
def healthKey : String := "SENSOR_INFO_FOR_SYS_HEALTH.XML=(1,ff)"
def smbiosKey : String := "SMBIOS_INFO.XML=(0,0)"
def nodeInfoKey : String := "Get_NodeInfoReadings.XML=(0,0)"
def platformInfoKey : String := "Get_PlatformInfo.XML=(0,0)"
def powerInfoKey : String := "POWER_INFO.XML=(0,0)"
def biosLicenseKey : String := "BIOS_LINCENSE_ACTIVATE.XML=(0,0)"

/-- The accessor results of one target, each wired to the query string
its method sends in the source. -/
def Bmc.accessors (s : Bmc) : Accessors where
  isBlade := IsBlade (s.queryResult nodeInfoKey)
  hardwareType := HardwareType (s.queryResult fruInfoKey)
  serial := Serial (s.queryResult fruInfoKey)
  version := Version (s.queryResult genericInfoKey)
  model := Model (s.queryResult fruInfoKey)
  nics := Nics (s.queryResult genericInfoKey) (s.queryResult platformInfoKey)
  disks := Disks
  biosVersion := BiosVersion (s.queryResult smbiosKey)
  cpu := CPU (s.queryResult smbiosKey)
  memory := Memory (s.queryResult smbiosKey)
  status := Status (s.queryResult healthKey)
  name := Name (s.queryResult configInfoKey)
  tempC := TempC (s.queryResult nodeInfoKey) (s.queryResult fruInfoKey)
  powerKw := PowerKw (s.queryResult nodeInfoKey) (s.queryResult fruInfoKey)
  powerState := PowerState (s.queryResult powerInfoKey)
  license := License (s.queryResult biosLicenseKey)
  slot := Slot (s.queryResult nodeInfoKey) (s.queryResult fruInfoKey)
  chassisSerial := ChassisSerial s.chassisGet s.decodeChassis

/-- Go's `x, err = call(); if err != nil { return nil, err }` step. -/
def step (x : α × Option Err) (k : α → Option (Except Err β)) : Option (Except Err β) :=
  match x with
  | (_, some e) => some (Except.error e)
  | (v, none) => k v

/-- The same step for the possibly-panicking `Memory` call. -/
def memStep (x : Option (Int × Option Err)) (k : Int → Option (Except Err β)) :
    Option (Except Err β) :=
  match x with
  | none => none
  | some (_, some e) => some (Except.error e)
  | some (v, none) => k v

/-- The blade branch of `ServerSnapshot` (supermicrox.go:623-692):
Serial, Version, Model, Nics, Disks, BiosVersion, CPU, Memory, Status,
Name, TempC, PowerKw, PowerState, License, Slot, ChassisSerial, each
aborting the aggregation on its error. -/
def bladeSnapshot (ip : String) (r : Accessors) : Option (Except Err Server) :=
  step r.serial fun serial =>
  step r.version fun version =>
  step r.model fun model =>
  step r.nics fun nics =>
  step r.disks fun disks =>
  step r.biosVersion fun biosVersion =>
  step r.cpu fun cpu =>
  memStep r.memory fun mem =>
  step r.status fun status =>
  step r.name fun name =>
  step r.tempC fun tempC =>
  step r.powerKw fun powerKw =>
  step r.powerState fun powerState =>
  step r.license fun license =>
  step r.slot fun slot =>
  step r.chassisSerial fun chassisSerial =>
  some (Except.ok (Server.blade {
    Vendor := VendorID, BmcAddress := ip, BmcType := r.hardwareType,
    Serial := serial, BmcVersion := version, Model := model, Nics := nics,
    Disks := disks, BiosVersion := biosVersion,
    Processor := cpu.1, ProcessorCount := cpu.2.1,
    ProcessorCoreCount := cpu.2.2.1, ProcessorThreadCount := cpu.2.2.2,
    Memory := mem, Status := status, Name := name, TempC := tempC,
    PowerKw := powerKw, PowerState := powerState,
    BmcLicenceType := license.1, BmcLicenceStatus := license.2,
    BladePosition := slot, ChassisSerial := chassisSerial }))

/-- The discrete branch of `ServerSnapshot` (supermicrox.go:694-755):
the same sequence without Slot and ChassisSerial. -/
def discreteSnapshot (ip : String) (r : Accessors) : Option (Except Err Server) :=
  step r.serial fun serial =>
  step r.version fun version =>
  step r.model fun model =>
  step r.nics fun nics =>
  step r.disks fun disks =>
  step r.biosVersion fun biosVersion =>
  step r.cpu fun cpu =>
  memStep r.memory fun mem =>
  step r.status fun status =>
  step r.name fun name =>
  step r.tempC fun tempC =>
  step r.powerKw fun powerKw =>
  step r.powerState fun powerState =>
  step r.license fun license =>
  some (Except.ok (Server.discrete {
    Vendor := VendorID, BmcAddress := ip, BmcType := r.hardwareType,
    Serial := serial, BmcVersion := version, Model := model, Nics := nics,
    Disks := disks, BiosVersion := biosVersion,
    Processor := cpu.1, ProcessorCount := cpu.2.1,
    ProcessorCoreCount := cpu.2.2.1, ProcessorThreadCount := cpu.2.2.2,
    Memory := mem, Status := status, Name := name, TempC := tempC,
    PowerKw := powerKw, PowerState := powerState,
    BmcLicenceType := license.1, BmcLicenceStatus := license.2 }))

/-- `ServerSnapshot` (supermicrox.go:621-759) over the accessor
results: the blade probe's error is discarded (`isBlade, _ :=`), its
boolean choosing the branch. -/
def snapshotFromResults (ip : String) (r : Accessors) : Option (Except Err Server) :=
  if r.isBlade.1 then bladeSnapshot ip r else discreteSnapshot ip r

/-- `ServerSnapshot` of one target. -/
def ServerSnapshot (s : Bmc) : Option (Except Err Server) :=
  snapshotFromResults s.ip s.accessors

/-- First error in a list of per-call error results. -/
def firstErr : List (Option Err) → Option Err
  | [] => none
  | some e :: _ => some e
  | none :: rest => firstErr rest

/-- The error a `Memory` call reports when it returns at all. -/
def memErr : Option (Int × Option Err) → Option Err
  | some (_, e) => e
  | none => none

/-- The error components of the aggregation sequence, in the fixed
order the source makes the calls; the blade branch appends Slot and
ChassisSerial. -/
def accessorErrs (r : Accessors) : List (Option Err) :=
  [r.serial.2, r.version.2, r.model.2, r.nics.2, r.disks.2, r.biosVersion.2,
   r.cpu.2, memErr r.memory, r.status.2, r.name.2, r.tempC.2, r.powerKw.2,
   r.powerState.2, r.license.2]
  ++ (if r.isBlade.1 then [r.slot.2, r.chassisSerial.2] else [])

/-- Modelled from the spec: the c7000 `OaSessionKey` element (type
declared outside `src/`). -/
structure OaSessionKey where
  Text : String
deriving DecidableEq

structure HpOaSessionKeyToken where
  OaSessionKey : OaSessionKey
deriving DecidableEq

structure Security where
  MustUnderstand : String
  HpOaSessionKeyToken : HpOaSessionKeyToken
deriving DecidableEq

structure SoapHeader where
  Security : Security
deriving DecidableEq

structure SoapBody (α : Type) where
  Content : α

/-- Modelled from the spec: the c7000 SOAP `Envelope` (type declared
outside `src/`); the WS-Security header is omitted entirely when no
session key is set, so it is an `Option`. -/
structure Envelope (α : Type) where
  SOAPENV : String
  Xsi : String
  Xsd : String
  Wsu : String
  Wsse : String
  Hpoa : String
  Header : Option SoapHeader
  Body : SoapBody α

/-- `wrapXML` (xmlhelpers.go:15-40): fixed namespace declarations, the
payload in the body, and — only for a non-empty session key — a
"must understand" WS-Security header carrying that key. -/
def wrapXML {α : Type} (element : α) (sessionKey : String) : Envelope α :=
  let base : Envelope α := {
    SOAPENV := "http://www.w3.org/2003/05/soap-envelope",
    Xsi := "http://www.w3.org/2001/XMLSchema-instance",
    Xsd := "http://www.w3.org/2001/XMLSchema",
    Wsu := "http://docs.oasis-open.org/wss/2004/01/oasis-200401-wss-wssecurity-utility-1.0.xsd",
    Wsse := "http://docs.oasis-open.org/wss/2004/01/oasis-200401-wss-wssecurity-secext-1.0.xsd",
    Hpoa := "hpoa.xsd",
    Header := none,
    Body := { Content := element } }
  if sessionKey ≠ "" then
    { base with Header := some { Security := {
        MustUnderstand := "true",
        HpOaSessionKeyToken := { OaSessionKey := { Text := sessionKey } } } } }
  else base

/-- The session-key texts of the WS-Security headers an envelope
contains (zero or one). -/
def wsSecurityKeys {α : Type} (env : Envelope α) : List String :=
  match env.Header with
  | none => []
  | some h => [h.Security.HpOaSessionKeyToken.OaSessionKey.Text]

/-! Concrete sample inputs for witnesses. -/

def emptyDoc : IPMI := {}

def sampleFruDoc : IPMI :=
  { FruInfo := some { Board := some { SerialNum := "XYZ", PartNum := "X10DRT" } } }

def boardlessFruDoc : IPMI := { FruInfo := some { Board := none } }

def sampleGenDoc : IPMI :=
  { GenericInfo := some { IpmiFwVersion := "1.2", BmcMac := "aa:bb:cc:dd:ee:ff", Generic := none } }

def sampleConfigDoc : IPMI := { ConfigInfo := some { Hostname := some { Name := "host1" } } }

def sampleHealthDoc : IPMI := { HealthInfo := some { Health := "1" } }

def samplePlatformDoc : IPMI :=
  { PlatformInfo := some { MbMacAddr1 := "0c:c4:7a:00:00:01", MbMacAddr2 := "",
                           MbMacAddr3 := "", MbMacAddr4 := "" } }

def samplePowerDoc : IPMI := { PowerInfo := some { Power := { Status := "ON" } } }

def sampleLicenseDoc : IPMI := { BiosLicense := some { Check := "0" } }

/-- SMBIOS document whose first CPU entry has an unparsable core count,
so that `CPU()` — the 7th aggregation call — fails. -/
def sampleSmbiosBad : IPMI :=
  { CPU := [{ Version := "Intel(R) Xeon(R)", Core := "x" }],
    Bios := some { Version := "3.1" } }

/-- SMBIOS document with two 8192 MB DIMMs. -/
def sampleSmbiosDoc : IPMI := { Dimm := [{ Size := "8192 MB" }, { Size := "8192 MB" }] }

def nodeABC : Node := { ID := 1, NodeSerial := "ABC", Power := "500", SystemTemp := "50" }

def nodeXYZ : Node := { ID := 2, NodeSerial := "XYZ", Power := "900", SystemTemp := "52" }

def sampleNI : NodeInfo := { Nodes := [nodeABC, nodeXYZ] }

def sampleNodeDoc : IPMI := { NodeInfo := some sampleNI }

/-- Query oracle of a healthy discrete target except that the SMBIOS
document makes `CPU()` fail. -/
def sampleOracle : String → QueryResult := fun key =>
  if key = fruInfoKey then .ok sampleFruDoc
  else if key = genericInfoKey then .ok sampleGenDoc
  else if key = smbiosKey then .ok sampleSmbiosBad
  else if key = configInfoKey then .ok sampleConfigDoc
  else if key = healthKey then .ok sampleHealthDoc
  else if key = platformInfoKey then .ok samplePlatformDoc
  else if key = powerInfoKey then .ok samplePowerDoc
  else if key = biosLicenseKey then .ok sampleLicenseDoc
  else if key = nodeInfoKey then .ok emptyDoc
  else .fail "unknown query"

def sampleChassisDecode : String → ChassisDecode := fun _ =>
  .ok { SerialNumber := "CS1", ErrorCode := "", ErrorMessage := "", ExtendedMessageIds := [] }

def sampleBmcCpuBad : Bmc :=
  { ip := "10.0.0.1", queryResult := sampleOracle,
    chassisGet := .resp 200 "body", decodeChassis := sampleChassisDecode }

/-- The same target with the node-info query failing, so that the
`IsBlade` probe returns an error. -/
def sampleBmcProbeDown : Bmc :=
  { ip := "10.0.0.1",
    queryResult := fun key =>
      if key = nodeInfoKey then .fail "probe down" else sampleOracle key,
    chassisGet := .resp 200 "body", decodeChassis := sampleChassisDecode }

/-! Theorems. -/

/-- C2: a well-formed FRU-info document with a board serial makes
`Serial()` return it lower-cased with no error; an absent FRU-info
sub-document or an absent board sub-element makes `Serial()` return the
empty string with the semantic invalid-serial error. -/
theorem serial_spec (doc : IPMI) :
    (∀ fru b, doc.FruInfo = some fru → fru.Board = some b →
      Serial (QueryResult.ok doc) = (strToLower b.SerialNum, none)) ∧
    (doc.FruInfo = none →
      Serial (QueryResult.ok doc) = ("", some Err.invalidSerial)) ∧
    (∀ fru, doc.FruInfo = some fru → fru.Board = none →
      Serial (QueryResult.ok doc) = ("", some Err.invalidSerial)) := by
  refine ⟨fun fru b hf hb => ?_, fun hf => ?_, fun fru hf hb => ?_⟩ <;>
    simp [Serial, hf]
  · simp [hb]
  · simp [hb]

/-- Witness for C2 at a concrete board serial "XYZ" and two degenerate
documents. -/
theorem serial_spec_witness :
    Serial (QueryResult.ok sampleFruDoc) = ("xyz", none) ∧
    Serial (QueryResult.ok emptyDoc) = ("", some Err.invalidSerial) ∧
    Serial (QueryResult.ok boardlessFruDoc) = ("", some Err.invalidSerial) :=
  ⟨(serial_spec sampleFruDoc).1 _ _ rfl rfl,
   (serial_spec emptyDoc).2.1 rfl,
   (serial_spec boardlessFruDoc).2.2 _ rfl rfl⟩

/-- The scan of `IsBlade` finds a node with a non-empty serial exactly
when one exists. -/
theorem bladeLoop_iff_exists (l : List Node) :
    bladeLoop l = true ↔ ∃ n ∈ l, n.NodeSerial ≠ "" := by
  induction l with
  | nil => simp [bladeLoop]
  | cons a rest ih =>
    by_cases ha : a.NodeSerial ≠ ""
    · simp [bladeLoop, ha]
    · simp only [bladeLoop, if_neg ha, ih]
      push_neg at ha
      simp [ha]

/-- C4: on a decoded node-info document, `IsBlade()` is true exactly
when some node entry has a non-empty node serial (with a nil error);
when the node-info sub-document is absent it returns false with no
error. -/
theorem isBlade_spec (doc : IPMI) :
    (∀ ni, doc.NodeInfo = some ni →
      (((IsBlade (QueryResult.ok doc)).1 = true ↔ ∃ n ∈ ni.Nodes, n.NodeSerial ≠ "") ∧
       (IsBlade (QueryResult.ok doc)).2 = none)) ∧
    (doc.NodeInfo = none → IsBlade (QueryResult.ok doc) = (false, none)) := by
  constructor
  · intro ni hni
    simp only [IsBlade, hni]
    exact ⟨bladeLoop_iff_exists ni.Nodes, by trivial⟩
  · intro h
    simp [IsBlade, h]

/-- Witness for C4: a two-node document with non-empty serials is a
blade; the node-info-less document is not, without an error. -/
theorem isBlade_spec_witness :
    (IsBlade (QueryResult.ok sampleNodeDoc)).1 = true ∧
    IsBlade (QueryResult.ok emptyDoc) = (false, none) :=
  ⟨((isBlade_spec sampleNodeDoc).1 sampleNI rfl).1.mpr ⟨nodeABC, by decide, by decide⟩,
   (isBlade_spec emptyDoc).2 rfl⟩

/-- The DIMM loop sums the parsed megabyte sizes when every size
parses. -/
theorem memLoop_sum (ds : List Dimm) (sizes : List Int) (acc : Int)
    (h : ds.map (fun d => atoi (trimSfx d.Size " MB")) = sizes.map Except.ok) :
    memLoop ds acc = (acc + sizes.sum, none) := by
  induction ds generalizing sizes acc with
  | nil =>
    have : sizes = [] := by
      cases sizes with
      | nil => rfl
      | cons s rest => simp at h
    subst this
    simp [memLoop]
  | cons d rest ih =>
    cases sizes with
    | nil => simp at h
    | cons s rest' =>
      simp only [List.map_cons, List.cons.injEq] at h
      simp only [memLoop, h.1]
      rw [ih rest' (acc + s) h.2]
      simp [List.sum_cons]
      ring_nf

/-- C5: `Memory()` strips the " MB" suffix from every module size, sums
the megabyte values and integer-divides the sum by 1024. -/
theorem memory_sums_mb (doc : IPMI) (sizes : List Int)
    (h : doc.Dimm.map (fun d => atoi (trimSfx d.Size " MB")) = sizes.map Except.ok) :
    Memory (QueryResult.ok doc) = some (sizes.sum.tdiv 1024, none) := by
  simp [Memory, memLoop_sum doc.Dimm sizes 0 h]

/-- Witness for C5: two 8192 MB modules yield 16 (GiB). -/
theorem memory_sums_mb_witness :
    Memory (QueryResult.ok sampleSmbiosDoc) = some (16, none) := by
  have h := memory_sums_mb sampleSmbiosDoc [8192, 8192] (by decide)
  rw [h]
  decide

/-- C8: a decoded power-info document makes `PowerState()` return the
power status lower-cased with no error; an absent power-info
sub-document yields the literal "unknow" with no error. -/
theorem powerState_spec (doc : IPMI) :
    (∀ pi, doc.PowerInfo = some pi →
      PowerState (QueryResult.ok doc) = (strToLower pi.Power.Status, none)) ∧
    (doc.PowerInfo = none → PowerState (QueryResult.ok doc) = ("unknow", none)) := by
  constructor
  · intro pi hpi
    simp [PowerState, hpi]
  · intro h
    simp [PowerState, h]

/-- Witness for C8: status "ON" comes back as "on"; the empty document
yields "unknow". -/
theorem powerState_spec_witness :
    PowerState (QueryResult.ok samplePowerDoc) = ("on", none) ∧
    PowerState (QueryResult.ok emptyDoc) = ("unknow", none) :=
  ⟨(powerState_spec samplePowerDoc).1 _ rfl,
   (powerState_spec emptyDoc).2 rfl⟩

/-- C9: `get` maps a 404 response to the distinguished page-not-found
error with no payload; any non-404 response returns the body with no
error; a transport failure propagates as a transport error, which the
page-not-found error is distinct from. -/
theorem get_spec (st : Nat) (body : String) (msg : String) :
    get (GetOutcome.resp 404 body) = (none, some Err.pageNotFound) ∧
    (st ≠ 404 → get (GetOutcome.resp st body) = (some body, none)) ∧
    get (GetOutcome.fail msg) = (none, some (Err.transportErr msg)) ∧
    Err.pageNotFound ≠ Err.transportErr msg := by
  refine ⟨rfl, fun h => ?_, rfl, by simp⟩
  simp [get, h]

/-- Witness for C9 at status 200. -/
theorem get_spec_witness : get (GetOutcome.resp 200 "ok") = (some "ok", none) :=
  (get_spec 200 "ok" "down").2.1 (by decide)

/-- C10 (against the claim): when `query` fails before decoding a
document — e.g. the session login fails — `Memory` dereferences the nil
document instead of returning the error: the run panics (`none`), while
every sibling accessor checks the error first. -/
theorem memory_nil_document_panics :
    Memory (QueryResult.fail "login failed") = none := rfl

/-- C6: an envelope built with a non-empty session key carries exactly
one WS-Security header, whose session-key token text is that key and
whose mustUnderstand attribute is "true"; an envelope built with the
empty session key carries no WS-Security header. -/
theorem wrapXML_security_header {α : Type} (element : α) (key : String) :
    (key ≠ "" →
      wsSecurityKeys (wrapXML element key) = [key] ∧
      ∀ h, (wrapXML element key).Header = some h → h.Security.MustUnderstand = "true") ∧
    (key = "" → (wrapXML element key).Header = none) := by
  constructor
  · intro hk
    constructor
    · simp [wrapXML, wsSecurityKeys, hk]
    · intro h hh
      simp only [wrapXML, if_pos hk] at hh
      injection hh with hh
      rw [← hh]
  · intro hk
    simp [wrapXML, hk]

/-- Witness for C6 at the keys "abc" and "". -/
theorem wrapXML_security_header_witness :
    wsSecurityKeys (wrapXML "payload" "abc") = ["abc"] ∧
    (wrapXML "payload" "").Header = none :=
  ⟨((wrapXML_security_header "payload" "abc").1 (by decide)).1,
   (wrapXML_security_header "payload" "").2 rfl⟩

/-- The node scan of `PowerKw` returns watts/1000 for the first node
whose lower-cased serial matches. -/
theorem powerLoop_find (l : List Node) (serial : String) (n : Node) (w : Int)
    (hfind : l.find? (fun nd => strToLower nd.NodeSerial == serial) = some n)
    (hw : atoi n.Power = Except.ok w) :
    powerLoop l serial = ((w : Rat) / 1000, none) := by
  induction l with
  | nil => simp at hfind
  | cons a rest ih =>
    by_cases hpa : strToLower a.NodeSerial = serial
    · rw [List.find?_cons_of_pos _ (by simp [hpa])] at hfind
      injection hfind with hfind
      subst hfind
      simp [powerLoop, hpa, hw]
    · rw [List.find?_cons_of_neg _ (by simp [hpa])] at hfind
      simp only [powerLoop, if_neg hpa]
      exact ih hfind

/-- C3: `PowerKw()` picks the node whose serial matches the device's
own serial case-insensitively, parses its power field as watts and
returns it divided by 1000 (embedded exactly over ℚ). -/
theorem powerKw_matches_node (doc : IPMI) (ni : NodeInfo) (fruQ : QueryResult)
    (serial : String) (n : Node) (w : Int)
    (hni : doc.NodeInfo = some ni)
    (hs : Serial fruQ = (serial, none))
    (hfind : ni.Nodes.find? (fun nd => strToLower nd.NodeSerial == serial) = some n)
    (hw : atoi n.Power = Except.ok w) :
    PowerKw (QueryResult.ok doc) fruQ = ((w : Rat) / 1000, none) := by
  simp only [PowerKw, hni, hs]
  exact powerLoop_find ni.Nodes serial n w hfind hw

/-- Witness for C3: nodes {ABC: 500 W, XYZ: 900 W} with own serial
"xyz" yield 0.9 kW. -/
theorem powerKw_matches_node_witness :
    PowerKw (QueryResult.ok sampleNodeDoc) (QueryResult.ok sampleFruDoc) = (9 / 10, none) := by
  have h := powerKw_matches_node sampleNodeDoc sampleNI (QueryResult.ok sampleFruDoc)
    "xyz" nodeXYZ 900 rfl (by decide) (by decide) (by decide)
  rw [h]
  norm_num

/-- A successful `step` hands the value to its continuation. -/
theorem step_ok_inv {α β : Type} (x : α × Option Err) (k : α → Option (Except Err β)) (o : β)
    (h : step x k = some (Except.ok o)) : k x.1 = some (Except.ok o) := by
  obtain ⟨v, e⟩ := x
  cases e with
  | none => exact h
  | some e1 => exact absurd h (by simp [step])

/-- A successful `memStep` hands some value to its continuation. -/
theorem memStep_ok_inv {β : Type} (x : Option (Int × Option Err))
    (k : Int → Option (Except Err β)) (o : β)
    (h : memStep x k = some (Except.ok o)) : ∃ v, k v = some (Except.ok o) := by
  match x with
  | none => exact absurd h (by simp [memStep])
  | some (v, none) => exact ⟨v, h⟩
  | some (v, some e1) => exact absurd h (by simp [memStep])

/-- The discrete branch only ever produces a `Discrete` record. -/
theorem discreteSnapshot_shape (ip : String) (r : Accessors) (o : Server)
    (h : discreteSnapshot ip r = some (Except.ok o)) :
    ∃ d, o = Server.discrete d := by
  simp only [discreteSnapshot] at h
  replace h := step_ok_inv _ _ _ h
  replace h := step_ok_inv _ _ _ h
  replace h := step_ok_inv _ _ _ h
  replace h := step_ok_inv _ _ _ h
  replace h := step_ok_inv _ _ _ h
  replace h := step_ok_inv _ _ _ h
  replace h := step_ok_inv _ _ _ h
  obtain ⟨mv, h⟩ := memStep_ok_inv _ _ _ h
  replace h := step_ok_inv _ _ _ h
  replace h := step_ok_inv _ _ _ h
  replace h := step_ok_inv _ _ _ h
  replace h := step_ok_inv _ _ _ h
  replace h := step_ok_inv _ _ _ h
  replace h := step_ok_inv _ _ _ h
  simp only [Option.some.injEq] at h
  injection h with h
  exact ⟨_, h.symm⟩

/-- An erroring `IsBlade` probe reports `false`. -/
theorem isBlade_error_false (q : QueryResult) (e : Err)
    (h : (IsBlade q).2 = some e) : (IsBlade q).1 = false := by
  cases q with
  | fail msg => rfl
  | decodeFail msg => rfl
  | ok doc =>
    cases hni : doc.NodeInfo with
    | none => simp [IsBlade, hni] at h
    | some ni => simp [IsBlade, hni] at h

/-- C7: when the `IsBlade` probe errors, `ServerSnapshot` discards the
error and runs the discrete branch, whose successful outcome is always
a `Discrete` record. -/
theorem serverSnapshot_probe_error_discrete (s : Bmc) (e : Err)
    (h : (Bmc.accessors s).isBlade.2 = some e) :
    ServerSnapshot s = discreteSnapshot s.ip s.accessors ∧
    ∀ o, ServerSnapshot s = some (Except.ok o) → ∃ d, o = Server.discrete d := by
  have hb : (Bmc.accessors s).isBlade.1 = false := isBlade_error_false _ e h
  have heq : ServerSnapshot s = discreteSnapshot s.ip s.accessors := by
    simp [ServerSnapshot, snapshotFromResults, hb]
  refine ⟨heq, fun o ho => ?_⟩
  rw [heq] at ho
  exact discreteSnapshot_shape _ _ _ ho

/-- Witness for C7: a target whose node-info query fails still
aggregates through the discrete branch. -/
theorem serverSnapshot_probe_error_discrete_witness :
    (Bmc.accessors sampleBmcProbeDown).isBlade.2 = some (Err.transportErr "probe down") ∧
    ServerSnapshot sampleBmcProbeDown
      = discreteSnapshot sampleBmcProbeDown.ip sampleBmcProbeDown.accessors :=
  ⟨by decide,
   (serverSnapshot_probe_error_discrete sampleBmcProbeDown
      (Err.transportErr "probe down") (by decide)).1⟩

/-- The aggregation sequence aborts with the first error of its fixed
call order, over arbitrary accessor results (provided the one call that
can panic, `Memory`, returns). -/
theorem snapshot_firstErr_aux (ip : String) (r : Accessors) (e : Err)
    (hm : r.memory ≠ none)
    (h : firstErr (accessorErrs r) = some e) :
    snapshotFromResults ip r = some (Except.error e) := by
  obtain ⟨ib, ht, serial, version, model, nics, disks, biosV, cpu, memory,
    status, name, tempC, powerKw, powerState, license, slot, chassis⟩ := r
  obtain ⟨ibb, ibe⟩ := ib
  obtain ⟨sv, se⟩ := serial
  obtain ⟨vv, ve⟩ := version
  obtain ⟨mdv, mde⟩ := model
  obtain ⟨niv, nie⟩ := nics
  obtain ⟨dsv, dse⟩ := disks
  obtain ⟨bvv, bve⟩ := biosV
  obtain ⟨cpv, cpe⟩ := cpu
  obtain ⟨stv, ste⟩ := status
  obtain ⟨nmv, nme⟩ := name
  obtain ⟨tcv, tce⟩ := tempC
  obtain ⟨pkv, pke⟩ := powerKw
  obtain ⟨psv, pse⟩ := powerState
  obtain ⟨lcv, lce⟩ := license
  obtain ⟨slv, sle⟩ := slot
  obtain ⟨chv, che⟩ := chassis
  rcases memory with _ | ⟨mmv, mme⟩
  · exact absurd rfl hm
  simp only [accessorErrs, memErr] at h
  simp only [snapshotFromResults]
  cases ibb
  case false =>
    rw [if_neg Bool.false_ne_true] at h ⊢
    simp only [List.append_nil] at h
    simp only [discreteSnapshot]
    cases se
    case some e1 =>
      simp only [firstErr, Option.some.injEq] at h
      subst h
      rfl
    simp only [firstErr] at h
    simp only [step]
    cases ve
    case some e1 =>
      simp only [firstErr, Option.some.injEq] at h
      subst h
      rfl
    simp only [firstErr] at h
    simp only [step]
    cases mde
    case some e1 =>
      simp only [firstErr, Option.some.injEq] at h
      subst h
      rfl
    simp only [firstErr] at h
    simp only [step]
    cases nie
    case some e1 =>
      simp only [firstErr, Option.some.injEq] at h
      subst h
      rfl
    simp only [firstErr] at h
    simp only [step]
    cases dse
    case some e1 =>
      simp only [firstErr, Option.some.injEq] at h
      subst h
      rfl
    simp only [firstErr] at h
    simp only [step]
    cases bve
    case some e1 =>
      simp only [firstErr, Option.some.injEq] at h
      subst h
      rfl
    simp only [firstErr] at h
    simp only [step]
    cases cpe
    case some e1 =>
      simp only [firstErr, Option.some.injEq] at h
      subst h
      rfl
    simp only [firstErr] at h
    simp only [step]
    cases mme
    case some e1 =>
      simp only [firstErr, Option.some.injEq] at h
      subst h
      rfl
    simp only [firstErr] at h
    simp only [memStep]
    cases ste
    case some e1 =>
      simp only [firstErr, Option.some.injEq] at h
      subst h
      rfl
    simp only [firstErr] at h
    simp only [step]
    cases nme
    case some e1 =>
      simp only [firstErr, Option.some.injEq] at h
      subst h
      rfl
    simp only [firstErr] at h
    simp only [step]
    cases tce
    case some e1 =>
      simp only [firstErr, Option.some.injEq] at h
      subst h
      rfl
    simp only [firstErr] at h
    simp only [step]
    cases pke
    case some e1 =>
      simp only [firstErr, Option.some.injEq] at h
      subst h
      rfl
    simp only [firstErr] at h
    simp only [step]
    cases pse
    case some e1 =>
      simp only [firstErr, Option.some.injEq] at h
      subst h
      rfl
    simp only [firstErr] at h
    simp only [step]
    cases lce
    case some e1 =>
      simp only [firstErr, Option.some.injEq] at h
      subst h
      rfl
    simp only [firstErr] at h
    exact Option.noConfusion h
  case true =>
    rw [if_pos rfl] at h ⊢
    simp only [List.cons_append, List.nil_append] at h
    simp only [bladeSnapshot]
    cases se
    case some e1 =>
      simp only [firstErr, Option.some.injEq] at h
      subst h
      rfl
    simp only [firstErr] at h
    simp only [step]
    cases ve
    case some e1 =>
      simp only [firstErr, Option.some.injEq] at h
      subst h
      rfl
    simp only [firstErr] at h
    simp only [step]
    cases mde
    case some e1 =>
      simp only [firstErr, Option.some.injEq] at h
      subst h
      rfl
    simp only [firstErr] at h
    simp only [step]
    cases nie
    case some e1 =>
      simp only [firstErr, Option.some.injEq] at h
      subst h
      rfl
    simp only [firstErr] at h
    simp only [step]
    cases dse
    case some e1 =>
      simp only [firstErr, Option.some.injEq] at h
      subst h
      rfl
    simp only [firstErr] at h
    simp only [step]
    cases bve
    case some e1 =>
      simp only [firstErr, Option.some.injEq] at h
      subst h
      rfl
    simp only [firstErr] at h
    simp only [step]
    cases cpe
    case some e1 =>
      simp only [firstErr, Option.some.injEq] at h
      subst h
      rfl
    simp only [firstErr] at h
    simp only [step]
    cases mme
    case some e1 =>
      simp only [firstErr, Option.some.injEq] at h
      subst h
      rfl
    simp only [firstErr] at h
    simp only [memStep]
    cases ste
    case some e1 =>
      simp only [firstErr, Option.some.injEq] at h
      subst h
      rfl
    simp only [firstErr] at h
    simp only [step]
    cases nme
    case some e1 =>
      simp only [firstErr, Option.some.injEq] at h
      subst h
      rfl
    simp only [firstErr] at h
    simp only [step]
    cases tce
    case some e1 =>
      simp only [firstErr, Option.some.injEq] at h
      subst h
      rfl
    simp only [firstErr] at h
    simp only [step]
    cases pke
    case some e1 =>
      simp only [firstErr, Option.some.injEq] at h
      subst h
      rfl
    simp only [firstErr] at h
    simp only [step]
    cases pse
    case some e1 =>
      simp only [firstErr, Option.some.injEq] at h
      subst h
      rfl
    simp only [firstErr] at h
    simp only [step]
    cases lce
    case some e1 =>
      simp only [firstErr, Option.some.injEq] at h
      subst h
      rfl
    simp only [firstErr] at h
    simp only [step]
    cases sle
    case some e1 =>
      simp only [firstErr, Option.some.injEq] at h
      subst h
      rfl
    simp only [firstErr] at h
    simp only [step]
    cases che
    case some e1 =>
      simp only [firstErr, Option.some.injEq] at h
      subst h
      rfl
    simp only [firstErr] at h
    exact Option.noConfusion h

/-- C1: `ServerSnapshot` makes its accessor calls in the fixed order
Serial, Version, Model, Nics, Disks, BiosVersion, CPU, Memory, Status,
Name, TempC, PowerKw, PowerState, License (then Slot and ChassisSerial
for a blade), and the first call to return an error aborts the
aggregation: the caller receives exactly that error and no snapshot
value, whatever the earlier calls produced. -/
theorem serverSnapshot_first_error_aborts (s : Bmc) (e : Err)
    (hm : (Bmc.accessors s).memory ≠ none)
    (h : firstErr (accessorErrs (Bmc.accessors s)) = some e) :
    ServerSnapshot s = some (Except.error e) :=
  snapshot_firstErr_aux s.ip (Bmc.accessors s) e hm h

/-- Witness for C1: a target whose 7th call (`CPU()`) fails at the
core-count parse aborts the aggregation with that parse error. -/
theorem serverSnapshot_first_error_aborts_witness :
    (Bmc.accessors sampleBmcCpuBad).memory ≠ none ∧
    firstErr (accessorErrs (Bmc.accessors sampleBmcCpuBad)) = some (Err.atoiErr "x") ∧
    ServerSnapshot sampleBmcCpuBad = some (Except.error (Err.atoiErr "x")) :=
  ⟨by decide, by decide,
   serverSnapshot_first_error_aborts sampleBmcCpuBad (Err.atoiErr "x")
     (by decide) (by decide)⟩

end Bmclib
